import Mathlib

/-!
Verification of the storage-mode abstraction and image lifecycle of the
gpt-image-1-playground repository: filename validation, password gate,
storage-mode selection, the provider gateway of the images route, the
bulk-deletion route, the image-serving route and the cost estimator.

The repository ships only the test suite for its API routes; the route
handlers themselves (src/app/api/images/route.ts,
src/app/api/image/[filename]/route.ts, src/app/api/image-delete/route.ts)
and the library modules (src/lib/cost-utils.ts) are not part of the
sources given here, so each of those handlers is modelled from the
specification, with the tests pinning the concrete constants (HTTP status
codes, error messages, default parameter values, pricing rates).
-/

namespace Playground

/-! ## Filename Validator -/

/-- Characters admitted by the safe-filename policy: the class
`[A-Za-z0-9._-]` of section 4.1 of the specification. -/
def isAllowedChar (c : Char) : Bool :=
  c.isAlpha || c.isDigit || c = '.' || c = '_' || c = '-'

/-- True when the character list contains two consecutive dots. -/
def hasDoubleDot : List Char → Bool
  | '.' :: '.' :: _ => true
  | _ :: rest => hasDoubleDot rest
  | [] => false

/-- Modelled from the spec: the Filename Validator of section 4.1 of the
specification (the route handlers under src/app/api that embed it are
missing from the sources). It rejects empty strings, any occurrence of
`..`, `/` or `\`, and any character outside `[A-Za-z0-9._-]`; the
path-separator rejections are subsumed by the character-class check. -/
def validateFilename (name : String) : Bool :=
  name != "" && !hasDoubleDot name.data && name.data.all isAllowedChar

/-- The regular expression `^[A-Za-z0-9._-]+$` of the claim: non-empty
and every character in the allowed class. -/
def matchesFilenamePattern (s : String) : Bool :=
  s != "" && s.data.all isAllowedChar

/-! ## Password Gate -/

/-- Result of the password gate of section 4.2 of the specification. -/
inductive AuthResult where
  | Allowed
  | MissingHash
  | InvalidHash
deriving DecidableEq, Repr

/-- Modelled from the spec: the Password Gate of section 4.2 (the
server-side auth helper shared by the API routes is missing from the
sources). The hash function is abstracted as a parameter; the routes use
SHA-256 (the tests compute it with node crypto). With no configured
secret, or an empty one, the gate is disabled and always allows; with a
secret configured, a missing supplied hash yields `MissingHash`, a hash
differing from the hash of the secret yields `InvalidHash`, and the
matching hash yields `Allowed`. -/
def authorize (configuredSecret : Option String) (suppliedHash : Option String)
    (hashFn : String → String) : AuthResult :=
  match configuredSecret with
  | none => .Allowed
  | some s =>
    if s = "" then .Allowed
    else
      match suppliedHash with
      | none => .MissingHash
      | some h => if h = hashFn s then .Allowed else .InvalidHash

/-! ## Storage Mode Selector -/

/-- The two persistence strategies. -/
inductive StorageMode where
  | fs
  | indexeddb
deriving DecidableEq, Repr

/-- Modelled from the spec: the Storage Mode Selector of section 4.3 (its
implementation is missing from the sources). An explicit configured mode
wins when it is one of the two valid values; otherwise a detected
serverless environment (the `VERCEL` variable in the tests) selects
`indexeddb`, and the default is `fs`. -/
def selectMode (explicitModeEnv : Option String) (isServerlessEnv : Bool) :
    StorageMode :=
  match explicitModeEnv with
  | some "fs" => .fs
  | some "indexeddb" => .indexeddb
  | _ => if isServerlessEnv then .indexeddb else .fs

/-! ## Image-serving route GET /api/image/[filename] -/

/-- Outcome of the existence check `fs.access` on a path. -/
inductive FsAccess where
  | ok
  | enoent
  | otherError
deriving DecidableEq, Repr

/-- MIME lookup by extension, as mocked in the test suite: known image
extensions map to their image type, anything else to a generic binary
type. -/
def mimeLookup (filename : String) : String :=
  if filename.endsWith ".png" then "image/png"
  else if filename.endsWith ".jpg" || filename.endsWith ".jpeg" then "image/jpeg"
  else if filename.endsWith ".webp" then "image/webp"
  else "application/octet-stream"

/-- Response of the image-serving route: either raw bytes with a content
type, or an error with an HTTP status and message. -/
inductive ServeResponse where
  | bytes (content : String) (contentType : String)
  | err (status : Nat) (msg : String)
deriving DecidableEq, Repr

/-- Modelled from the spec: the GET /api/image/[filename] handler of
sections 4.5 and 6 (src/app/api/image/[filename]/route.ts is missing
from the sources). Empty filename gives 400 `Filename is required`; a
filename failing the validator gives 400 `Invalid filename` before any
filesystem access; otherwise the file is checked and read, ENOENT
mapping to 404 and any other access failure to 500. The second component
of the result lists the filenames whose disk entry was accessed. -/
def imageServeGET (filename : String) (access : String → FsAccess)
    (readFile : String → String) : ServeResponse × List String :=
  if filename == "" then
    (.err 400 "Filename is required", [])
  else if !validateFilename filename then
    (.err 400 "Invalid filename", [])
  else
    match access filename with
    | .enoent => (.err 404 "Image not found", [filename])
    | .otherError => (.err 500 "Internal server error", [filename])
    | .ok => (.bytes (readFile filename) (mimeLookup filename), [filename])

/-! ## Bulk-deletion route POST /api/image-delete -/

/-- A JSON-like value, enough to express the shapes the deletion route
distinguishes in its `filenames` field. -/
inductive JVal where
  | jnull
  | jbool (b : Bool)
  | jnum (n : Int)
  | jstr (s : String)
  | jarr (xs : List JVal)
  | jobj

/-- Extract a list of strings from a list of JSON values; any non-string
element makes the whole extraction fail. -/
def asStringList : List JVal → Option (List String)
  | [] => some []
  | .jstr s :: rest => (asStringList rest).map (s :: ·)
  | _ => none

/-- Extract an array of strings from a JSON value; a non-array value or
an array with a non-string element fails. -/
def asStringArray : JVal → Option (List String)
  | .jarr xs => asStringList xs
  | _ => none

/-- Outcome of `fs.unlink` on a path. -/
inductive UnlinkOutcome where
  | ok
  | enoent
  | otherError
deriving DecidableEq, Repr

/-- Per-filename outcome of the bulk deletion, as serialized in the
route's `results` array. -/
structure ItemResult where
  filename : String
  success : Bool
  error : Option String
deriving DecidableEq, Repr

/-- Response of the deletion route: a bare error (400/401) or a summary
with per-item results (200/207). -/
inductive DeleteResponse where
  | err (status : Nat) (error : String)
  | summary (status : Nat) (message : String) (results : List ItemResult)
deriving DecidableEq, Repr

/-- Parsed state of the deletion request body: unparseable JSON, or an
object carrying an optional `filenames` value and an optional
`passwordHash` string. -/
inductive DeleteBody where
  | malformed
  | parsed (filenames : Option JVal) (passwordHash : Option String)

/-- Result of one deletion item: an invalid-format filename fails
without any unlink; a valid one is unlinked, ENOENT mapping to
`File not found.` and any other failure to `Failed to delete file.`. -/
def deleteItem (fs : String → UnlinkOutcome) (f : String) : ItemResult :=
  if validateFilename f then
    match fs f with
    | .ok => ⟨f, true, none⟩
    | .enoent => ⟨f, false, some "File not found."⟩
    | .otherError => ⟨f, false, some "Failed to delete file."⟩
  else ⟨f, false, some "Invalid filename format."⟩

/-- Process the filename list in order, collecting one result per item
and the list of filenames on which an unlink was attempted. -/
def processDeletions (fs : String → UnlinkOutcome) :
    List String → List ItemResult × List String
  | [] => ([], [])
  | f :: rest =>
    let r := deleteItem fs f
    let (rs, att) := processDeletions fs rest
    (r :: rs, (if validateFilename f then [f] else []) ++ att)

/-- Process an already-validated list of filenames: a summary answer
plus the filenames on which an unlink was attempted. An empty list is a
success no-op; otherwise every item is processed and the status is 200
when all succeeded, 207 when some failed. -/
def deleteWithStrs (fs : String → UnlinkOutcome) (strs : List String) :
    DeleteResponse × List String :=
  match strs with
  | [] => (.summary 200 "No filenames provided to delete." [], [])
  | _ :: _ =>
    let (results, attempted) := processDeletions fs strs
    if results.all (·.success) then
      (.summary 200 "All files deleted successfully." results, attempted)
    else
      (.summary 207 "Some files could not be deleted." results, attempted)

/-- Modelled from the spec: the POST /api/image-delete handler of
sections 4.5 and 6 (src/app/api/image-delete/route.ts is missing from
the sources). The body is parsed first (the password hash travels in
it), then the password gate runs, then the `filenames` shape is checked
all-or-nothing, then each filename is processed independently; the
summary status is 200 when every item succeeded (or the list is empty)
and 207 otherwise. The second component of the result lists the
filenames on which an unlink was attempted. -/
def imageDeletePOST (appPassword : Option String) (hashFn : String → String)
    (body : DeleteBody) (fs : String → UnlinkOutcome) :
    DeleteResponse × List String :=
  match body with
  | .malformed => (.err 400 "Invalid request body: Must be JSON.", [])
  | .parsed fns ph =>
    match authorize appPassword ph hashFn with
    | .MissingHash => (.err 401 "Unauthorized: Missing password hash.", [])
    | .InvalidHash => (.err 401 "Unauthorized: Invalid password.", [])
    | .Allowed =>
      match fns with
      | none => (.err 400 "Invalid filenames: Must be an array of strings.", [])
      | some v =>
        match asStringArray v with
        | none => (.err 400 "Invalid filenames: Must be an array of strings.", [])
        | some strs => deleteWithStrs fs strs

/-! ## Images route POST /api/images -/

/-- Environment configuration consumed by the images route. -/
structure ImagesEnv where
  apiKey : Option String
  appPassword : Option String
  storageModeEnv : Option String
  isServerless : Bool

/-- Multipart form fields of a generation/edit request; `sourceImages`
counts the binary image files attached for edit mode. -/
structure ImagesForm where
  mode : Option String
  prompt : Option String
  passwordHash : Option String
  n : Option String
  size : Option String
  quality : Option String
  output_format : Option String
  output_compression : Option String
  background : Option String
  moderation : Option String
  sourceImages : Nat
  hasMask : Bool

/-- Parameter record of the outbound provider call, mirroring the
argument object the tests assert on `openai.images.generate`;
`output_compression` is optional and omitted (`none`) when not
forwarded. -/
structure GenParams where
  model : String
  prompt : String
  n : Nat
  size : String
  quality : String
  output_format : String
  output_compression : Option Nat
  background : String
  moderation : String
deriving DecidableEq, Repr

/-- One image item of the provider response; `b64_json` is absent
(`none`) when the provider returned no byte payload for the item. -/
structure ProviderItem where
  b64_json : Option String
deriving DecidableEq, Repr

/-- A provider item carries a usable payload when `b64_json` is present
and non-empty. -/
def hasPayload (it : ProviderItem) : Bool :=
  match it.b64_json with
  | some s => s != ""
  | none => false

/-- Outcome of the provider call: a thrown error with a message, or a
response with image items and an opaque usage record (`none` when the
response carried no usage). -/
inductive ProviderResult where
  | errored (msg : String)
  | ok (items : List ProviderItem) (hasUsage : Bool)
deriving DecidableEq, Repr

/-- One image entry of a successful response of the images route: the
generated filename, the inline byte payload, the disk path (present in
filesystem mode only), and the normalized output format. -/
structure ImageEntry where
  filename : String
  b64_json : Option String
  path : Option String
  output_format : String
deriving DecidableEq, Repr

/-- Response of the images route: a success with image entries and a
usage flag, or an error with an HTTP status and message. -/
inductive ImagesResponse where
  | ok (images : List ImageEntry) (hasUsage : Bool)
  | err (status : Nat) (msg : String)
deriving DecidableEq, Repr

/-- ASCII lower-casing of one character, as `toLowerCase` acts on the
format names at hand. -/
def lowerChar (c : Char) : Char :=
  if 'A' ≤ c ∧ c ≤ 'Z' then Char.ofNat (c.toNat + 32) else c

/-- ASCII lower-casing of a string. -/
def lowerString (s : String) : String :=
  ⟨s.data.map lowerChar⟩

/-- Modelled from the spec: output-format normalization of section 4.4
(part of the missing src/app/api/images/route.ts). Aliases are accepted
case-insensitively, `jpg` maps to `jpeg`, the recognized set is
`{png, jpeg, webp}`, and anything else (a missing value included) falls
back to `png`. -/
def normalizeOutputFormat (s : Option String) : String :=
  match s with
  | none => "png"
  | some raw =>
    if lowerString raw = "jpg" ∨ lowerString raw = "jpeg" then "jpeg"
    else if lowerString raw = "png" then "png"
    else if lowerString raw = "webp" then "webp"
    else "png"

/-- Parse a string of decimal digits; empty or non-numeric strings
fail. -/
def parseNat? (s : String) : Option Nat :=
  if s.data = [] then none
  else if s.data.all Char.isDigit then
    some (s.data.foldl (fun acc c => acc * 10 + (c.toNat - 48)) 0)
  else none

/-- Clamp the requested image count into [1,10]; a missing or
unparseable value defaults to 1. -/
def clampCount (n : Option String) : Nat :=
  min 10 (max 1 ((n.bind parseNat?).getD 1))

/-- Allowed sizes of section 4.4; an out-of-set or missing value falls
back to the default `1024x1024` asserted by the generation-defaults
test. -/
def normalizeSize (s : Option String) : String :=
  match s with
  | some v => if v ∈ ["1024x1024", "1536x1024", "1024x1536", "auto"] then v
              else "1024x1024"
  | none => "1024x1024"

/-- Allowed quality values of section 4.4 with default `auto`. -/
def normalizeQuality (s : Option String) : String :=
  match s with
  | some v => if v ∈ ["auto", "low", "medium", "high"] then v else "auto"
  | none => "auto"

/-- Allowed background values of section 4.4 with default `auto`. -/
def normalizeBackground (s : Option String) : String :=
  match s with
  | some v => if v ∈ ["auto", "transparent", "opaque"] then v else "auto"
  | none => "auto"

/-- Allowed moderation values of section 4.4 with default `auto`. -/
def normalizeModeration (s : Option String) : String :=
  match s with
  | some v => if v ∈ ["auto", "low"] then v else "auto"
  | none => "auto"

/-- Modelled from the spec: assembly of the outbound provider-call
parameters of section 4.4 (part of the missing
src/app/api/images/route.ts). The compression value is forwarded only
when the normalized format is `jpeg` or `webp`, defaulting to 100 when
the form carries none; the model name is the one the tests assert. -/
def buildGenParams (form : ImagesForm) (prompt : String) : GenParams :=
  let fmt := normalizeOutputFormat form.output_format
  { model := "gpt-image-1-mini"
    prompt := prompt
    n := clampCount form.n
    size := normalizeSize form.size
    quality := normalizeQuality form.quality
    output_format := fmt
    output_compression :=
      if fmt = "jpeg" ∨ fmt = "webp" then
        some ((form.output_compression.bind parseNat?).getD 100)
      else none
    background := normalizeBackground form.background
    moderation := normalizeModeration form.moderation }

/-- Directory the filesystem mode writes into. -/
def outputDir : String := "generated-images"

/-- Filename of the image at a given index: `<timestamp>-<index>.<ext>`
with the normalized output format as extension. -/
def imageFilename (timestamp idx : Nat) (fmt : String) : String :=
  toString timestamp ++ "-" ++ toString idx ++ "." ++ fmt

/-- Modelled from the spec: the Image Persistence Service of section 4.5
(part of the missing src/app/api/images/route.ts). In filesystem mode
each item is written to disk and its entry carries the disk path; in
IndexedDB mode nothing is written and the entry carries only the inline
payload. Returns the response entries and the list of filenames written
to disk, walking the items from the given index. -/
def persistFrom (mode : StorageMode) (fmt : String) (timestamp idx : Nat) :
    List ProviderItem → List ImageEntry × List String
  | [] => ([], [])
  | it :: rest =>
    let fname := imageFilename timestamp idx fmt
    let (es, ws) := persistFrom mode fmt timestamp (idx + 1) rest
    match mode with
    | .fs =>
      ({ filename := fname, b64_json := it.b64_json,
         path := some (outputDir ++ "/" ++ fname), output_format := fmt } :: es,
       fname :: ws)
    | .indexeddb =>
      ({ filename := fname, b64_json := it.b64_json,
         path := none, output_format := fmt } :: es, ws)

/-- Persist a whole provider response starting at index 0. -/
def persistImages (mode : StorageMode) (fmt : String) (timestamp : Nat)
    (items : List ProviderItem) : List ImageEntry × List String :=
  persistFrom mode fmt timestamp 0 items

/-- Modelled from the spec: the POST /api/images handler of sections
4.2 to 4.5 and 6 (src/app/api/images/route.ts is missing from the
sources). Checks the API key, runs the password gate, validates mode and
prompt, assembles the provider parameters, calls the provider, rejects
responses with a missing payload wholesale, and persists according to
the selected storage mode. The result carries the response, the
parameters of the provider call when one was made, and the filenames
written to disk; `fsWriteOk` models whether disk writes succeed. -/
def imagesPOST (env : ImagesEnv) (form : ImagesForm) (hashFn : String → String)
    (provider : GenParams → ProviderResult) (fsWriteOk : Bool)
    (timestamp : Nat) : ImagesResponse × Option GenParams × List String :=
  if env.apiKey.isNone then
    (.err 500 "Server configuration error: API key not found.", none, [])
  else
    match authorize env.appPassword form.passwordHash hashFn with
    | .MissingHash => (.err 401 "Unauthorized: Missing password hash.", none, [])
    | .InvalidHash => (.err 401 "Unauthorized: Invalid password.", none, [])
    | .Allowed =>
      match form.prompt with
      | none => (.err 400 "Prompt is required.", none, [])
      | some p =>
        if p = "" then (.err 400 "Prompt is required.", none, [])
        else if form.mode ≠ some "generate" ∧ form.mode ≠ some "edit" then
          (.err 400 "Invalid mode specified.", none, [])
        else if form.mode = some "edit" ∧ form.sourceImages = 0 then
          (.err 400 "No image file provided for editing.", none, [])
        else
          match provider (buildGenParams form p) with
          | .errored msg => (.err 500 msg, some (buildGenParams form p), [])
          | .ok items hasUsage =>
            if items.isEmpty || items.any (fun it => !hasPayload it) then
              (.err 500 "Failed to retrieve image data from API.",
               some (buildGenParams form p), [])
            else if selectMode env.storageModeEnv env.isServerless
                = StorageMode.fs ∧ fsWriteOk = false then
              (.err 500 "Failed to save image to disk.",
               some (buildGenParams form p), [])
            else
              (.ok (persistImages (selectMode env.storageModeEnv env.isServerless)
                      (buildGenParams form p).output_format timestamp items).1
                 hasUsage,
               some (buildGenParams form p),
               (persistImages (selectMode env.storageModeEnv env.isServerless)
                  (buildGenParams form p).output_format timestamp items).2)

/-! ## Cost Estimator -/

/-- A token-count field of the usage record: a number, a present but
non-numeric value, or an absent field. -/
inductive TokenField where
  | num (n : Nat)
  | nonNumeric
  | missing
deriving DecidableEq, Repr

/-- The `input_tokens_details` breakdown of the usage record. -/
structure InputTokensDetails where
  text_tokens : TokenField
  image_tokens : TokenField
deriving DecidableEq, Repr

/-- The usage record handed to the cost estimator; the breakdown is
absent when the record lacks the expected shape. -/
structure ApiUsage where
  input_tokens_details : Option InputTokensDetails
  output_tokens : TokenField
deriving DecidableEq, Repr

/-- The cost summary produced by `calculateApiCost`. -/
structure CostDetails where
  estimated_cost_usd : ℚ
  text_input_tokens : Nat
  image_input_tokens : Nat
  image_output_tokens : Nat
deriving DecidableEq, Repr

/-- Numeric value of a token field: an absent field defaults to 0, a
non-numeric one poisons the computation. -/
def tokenValue : TokenField → Option Nat
  | .num n => some n
  | .missing => some 0
  | .nonNumeric => none

/-- Price of one text input token in USD (spec section 4.6; the rate
constants are pinned by the tests of src/tests/setup.ts). -/
def priceTextInput : ℚ := 5 / 1000000

/-- Price of one image input token in USD. -/
def priceImageInput : ℚ := 10 / 1000000

/-- Price of one image output token in USD. -/
def priceImageOutput : ℚ := 40 / 1000000

/-- Round half-up to 4 decimal places, as `Math.round(x * 10000) / 10000`
does for the non-negative costs at hand. -/
def roundHalfUpTo4 (q : ℚ) : ℚ := (⌊q * 10000 + 1 / 2⌋₊ : ℚ) / 10000

/-- Modelled from the spec: `calculateApiCost` of section 4.6
(src/lib/cost-utils.ts is missing from the sources). Null when the
usage record is absent or lacks the breakdown shape, null when any token
field is non-numeric, and otherwise the rate-weighted token sum rounded
half-up to 4 decimal places, computed here over exact integers in units
of 10^-6 USD before the final rounding division. -/
def calculateApiCost : Option ApiUsage → Option CostDetails
  | none => none
  | some u =>
    match u.input_tokens_details with
    | none => none
    | some d =>
      match tokenValue d.text_tokens, tokenValue d.image_tokens,
            tokenValue u.output_tokens with
      | some t, some i, some o =>
        some { estimated_cost_usd :=
                 (((5 * t + 10 * i + 40 * o + 50) / 100 : ℕ) : ℚ) / 10000
               text_input_tokens := t
               image_input_tokens := i
               image_output_tokens := o }
      | _, _, _ => none

/-- Environment of the test suite's basic scenarios: an API key, no
password, no explicit storage mode, not serverless. -/
def testEnv : ImagesEnv :=
  { apiKey := some "test-key", appPassword := none, storageModeEnv := none,
    isServerless := false }

/-- A generation form supplying only mode, prompt and password hash. -/
def minimalForm (p : String) (ph : Option String) : ImagesForm :=
  { mode := some "generate", prompt := some p, passwordHash := ph,
    n := none, size := none, quality := none, output_format := none,
    output_compression := none, background := none, moderation := none,
    sourceImages := 0, hasMask := false }

/-- Form of the test suite's basic generation request: only mode and
prompt supplied. -/
def testForm : ImagesForm := minimalForm "test" none

end Playground

namespace Playground

/-! ## Helper lemmas -/

theorem slash_not_allowed : isAllowedChar '/' = false := by decide

theorem backslash_not_allowed : isAllowedChar '\\' = false := by decide

theorem beq_empty_false_of_mem {name : String} {c : Char}
    (hc : c ∈ name.data) : (name == "") = false := by
  apply beq_eq_false_iff_ne.mpr
  intro h
  subst h
  exact absurd hc (List.not_mem_nil c)

theorem beq_empty_false_of_double_dot {name : String}
    (hdd : hasDoubleDot name.data = true) : (name == "") = false := by
  apply beq_eq_false_iff_ne.mpr
  intro h
  subst h
  exact absurd hdd (by decide)

theorem validateFilename_false_of_bad_char (name : String) (c : Char)
    (hc : c ∈ name.data) (hbad : isAllowedChar c = false) :
    validateFilename name = false := by
  have hall : name.data.all isAllowedChar = false := by
    apply Bool.eq_false_iff.mpr
    intro hall
    rw [List.all_eq_true] at hall
    have := hall c hc
    rw [hbad] at this
    exact Bool.false_ne_true this
  unfold validateFilename
  rw [hall]
  simp

theorem validateFilename_false_of_double_dot (name : String)
    (hdd : hasDoubleDot name.data = true) :
    validateFilename name = false := by
  unfold validateFilename
  rw [hdd]
  simp

theorem validateFilename_of_pattern_no_double_dot (name : String)
    (hpat : matchesFilenamePattern name = true)
    (hdd : hasDoubleDot name.data = false) :
    validateFilename name = true := by
  unfold validateFilename
  unfold matchesFilenamePattern at hpat
  simp only [Bool.and_eq_true, Bool.not_eq_true'] at hpat ⊢
  exact ⟨⟨hpat.1, hdd⟩, hpat.2⟩

theorem asStringList_map_jstr (strs : List String) :
    asStringList (strs.map JVal.jstr) = some strs := by
  induction strs with
  | nil => rfl
  | cons s rest ih => simp [asStringList, ih]

theorem processDeletions_eq (fs : String → UnlinkOutcome) (l : List String) :
    processDeletions fs l
      = (l.map (deleteItem fs), l.filter (fun f => validateFilename f)) := by
  induction l with
  | nil => rfl
  | cons f rest ih =>
    simp only [processDeletions, ih, List.map_cons, List.filter_cons]
    by_cases h : validateFilename f = true <;> simp [h]

theorem asStringList_none_of_bad (xs : List JVal) (x : JVal) (hx : x ∈ xs)
    (hbad : ∀ s, x ≠ JVal.jstr s) : asStringList xs = none := by
  induction xs with
  | nil => cases hx
  | cons y rest ih =>
    rcases List.mem_cons.mp hx with hy | hmem
    · subst hy
      cases x with
      | jstr s => exact absurd rfl (hbad s)
      | jnull => rfl
      | jbool b => rfl
      | jnum n => rfl
      | jarr l => rfl
      | jobj => rfl
    · cases y with
      | jstr s => simp [asStringList, ih hmem]
      | jnull => rfl
      | jbool b => rfl
      | jnum n => rfl
      | jarr l => rfl
      | jobj => rfl

/-! ## Claim C1 -/

/-- Claim C1 is refuted by the filename `..`: it is non-empty and matches
`^[A-Za-z0-9._-]+$`, yet the validator rejects it (the spec's own
contract rejects every occurrence of `..`), so retrieval answers 400
`Invalid filename` without touching the disk instead of proceeding to
the disk read. -/
theorem serve_pattern_counterexample :
    matchesFilenamePattern ".." = true ∧
    validateFilename ".." = false ∧
    (imageServeGET ".." (fun _ => FsAccess.ok) (fun _ => "data")).1
      = ServeResponse.err 400 "Invalid filename" ∧
    (imageServeGET ".." (fun _ => FsAccess.ok) (fun _ => "data")).2 = [] := by
  refine ⟨by decide, by decide, ?_, ?_⟩ <;> rfl

/-- Claim C1 (amended): every filename containing `..`, `/` or `\` is
rejected by the Filename Validator, and its retrieval answers 400
`Invalid filename` with no filesystem access attempted; every non-empty
filename matching `^[A-Za-z0-9._-]+$` that does not contain `..` is
accepted, and its retrieval proceeds to the disk access. -/
theorem imageServe_filename_policy (name : String) (access : String → FsAccess)
    (readFile : String → String) :
    (hasDoubleDot name.data = true ∨ '/' ∈ name.data ∨ '\\' ∈ name.data →
      validateFilename name = false ∧
      (imageServeGET name access readFile).1
        = ServeResponse.err 400 "Invalid filename" ∧
      (imageServeGET name access readFile).2 = []) ∧
    (matchesFilenamePattern name = true → hasDoubleDot name.data = false →
      validateFilename name = true ∧
      (imageServeGET name access readFile).2 = [name]) := by
  constructor
  · intro h
    have hv : validateFilename name = false := by
      rcases h with hdd | hs | hb
      · exact validateFilename_false_of_double_dot name hdd
      · exact validateFilename_false_of_bad_char name '/' hs slash_not_allowed
      · exact validateFilename_false_of_bad_char name '\\' hb backslash_not_allowed
    have hne : (name == "") = false := by
      rcases h with hdd | hs | hb
      · exact beq_empty_false_of_double_dot hdd
      · exact beq_empty_false_of_mem hs
      · exact beq_empty_false_of_mem hb
    refine ⟨hv, ?_, ?_⟩ <;> simp [imageServeGET, hne, hv]
  · intro hpat hdd
    have hv : validateFilename name = true :=
      validateFilename_of_pattern_no_double_dot name hpat hdd
    have hne : (name == "") = false := by
      unfold matchesFilenamePattern at hpat
      simp only [Bool.and_eq_true, bne_iff_ne, ne_eq] at hpat
      exact beq_eq_false_iff_ne.mpr hpat.1
    refine ⟨hv, ?_⟩
    unfold imageServeGET
    rw [hne, hv]
    simp only [Bool.false_eq_true, if_false, Bool.not_true, reduceIte]
    cases access name <;> rfl

/-- Witness for the amended claim C1: a traversal filename is rejected
with no disk access, and a clean filename reaches the disk. -/
theorem imageServe_filename_policy_witness :
    ((imageServeGET "a/b.png" (fun _ => FsAccess.ok) (fun _ => "d")).1
       = ServeResponse.err 400 "Invalid filename" ∧
     (imageServeGET "a/b.png" (fun _ => FsAccess.ok) (fun _ => "d")).2 = []) ∧
    (imageServeGET "sunset.png" (fun _ => FsAccess.ok) (fun _ => "d")).2
      = ["sunset.png"] := by
  constructor
  · exact ((imageServe_filename_policy "a/b.png" _ _).1
      (Or.inr (Or.inl (by decide)))).2
  · exact ((imageServe_filename_policy "sunset.png" _ _).2
      (by decide) (by decide)).2

/-! ## Claim C3 -/

/-- Claim C3: with no configured secret, or an empty one, the password
gate always allows; with a non-empty secret, the hash of the secret is
allowed, an absent hash yields MissingHash (mapped by the images route
to 401 `Unauthorized: Missing password hash.`), and any other hash
yields InvalidHash (mapped to 401 `Unauthorized: Invalid password.`). -/
theorem passwordGate_spec (hashFn : String → String) :
    (∀ supplied, authorize none supplied hashFn = AuthResult.Allowed) ∧
    (∀ supplied, authorize (some "") supplied hashFn = AuthResult.Allowed) ∧
    (∀ s, s ≠ "" →
      authorize (some s) (some (hashFn s)) hashFn = AuthResult.Allowed) ∧
    (∀ s, s ≠ "" → authorize (some s) none hashFn = AuthResult.MissingHash) ∧
    (∀ s h, s ≠ "" → h ≠ hashFn s →
      authorize (some s) (some h) hashFn = AuthResult.InvalidHash) ∧
    (∀ env form provider fsW ts, env.apiKey.isNone = false →
      authorize env.appPassword form.passwordHash hashFn
        = AuthResult.MissingHash →
      (imagesPOST env form hashFn provider fsW ts).1
        = ImagesResponse.err 401 "Unauthorized: Missing password hash.") ∧
    (∀ env form provider fsW ts, env.apiKey.isNone = false →
      authorize env.appPassword form.passwordHash hashFn
        = AuthResult.InvalidHash →
      (imagesPOST env form hashFn provider fsW ts).1
        = ImagesResponse.err 401 "Unauthorized: Invalid password.") := by
  refine ⟨fun _ => rfl, fun _ => rfl, ?_, ?_, ?_, ?_, ?_⟩
  · intro s hs
    simp [authorize, hs]
  · intro s hs
    simp [authorize, hs]
  · intro s h hs hmm
    simp [authorize, hs, hmm]
  · intro env form provider fsW ts hkey hauth
    simp [imagesPOST, hkey, hauth]
  · intro env form provider fsW ts hkey hauth
    simp [imagesPOST, hkey, hauth]

/-- Claim C2: bulk deletion answers one result per input filename in
input order, each computed independently from that filename and the
filesystem alone (invalid format failing without an unlink, ENOENT
mapping to `File not found.`, any other unlink failure to
`Failed to delete file.`); the status is 207 exactly when some item
failed and 200 exactly when all succeeded, the empty list being a
success no-op with an empty result list. -/
theorem imageDelete_bulk (strs : List String) (ph : Option String)
    (hashFn : String → String) (fs : String → UnlinkOutcome) :
    ∃ status message results,
      (imageDeletePOST none hashFn
          (DeleteBody.parsed (some (JVal.jarr (strs.map JVal.jstr))) ph) fs).1
        = DeleteResponse.summary status message results ∧
      results = strs.map (deleteItem fs) ∧
      (status = 200 ↔ results.all (·.success) = true) ∧
      (status = 207 ↔ results.all (·.success) = false) ∧
      (strs = [] → status = 200 ∧
        message = "No filenames provided to delete." ∧ results = []) ∧
      (imageDeletePOST none hashFn
          (DeleteBody.parsed (some (JVal.jarr (strs.map JVal.jstr))) ph) fs).2
        = strs.filter (fun f => validateFilename f) ∧
      (∀ f, validateFilename f = false →
        deleteItem fs f = ⟨f, false, some "Invalid filename format."⟩) ∧
      (∀ f, validateFilename f = true → fs f = UnlinkOutcome.enoent →
        deleteItem fs f = ⟨f, false, some "File not found."⟩) ∧
      (∀ f, validateFilename f = true → fs f = UnlinkOutcome.otherError →
        deleteItem fs f = ⟨f, false, some "Failed to delete file."⟩) ∧
      (∀ f, validateFilename f = true → fs f = UnlinkOutcome.ok →
        deleteItem fs f = ⟨f, true, none⟩) := by
  have hitem1 : ∀ f, validateFilename f = false →
      deleteItem fs f = ⟨f, false, some "Invalid filename format."⟩ := by
    intro f hf
    simp [deleteItem, hf]
  have hitem2 : ∀ f, validateFilename f = true → fs f = UnlinkOutcome.enoent →
      deleteItem fs f = ⟨f, false, some "File not found."⟩ := by
    intro f hf hfs
    simp [deleteItem, hf, hfs]
  have hitem3 : ∀ f, validateFilename f = true → fs f = UnlinkOutcome.otherError →
      deleteItem fs f = ⟨f, false, some "Failed to delete file."⟩ := by
    intro f hf hfs
    simp [deleteItem, hf, hfs]
  have hitem4 : ∀ f, validateFilename f = true → fs f = UnlinkOutcome.ok →
      deleteItem fs f = ⟨f, true, none⟩ := by
    intro f hf hfs
    simp [deleteItem, hf, hfs]
  have hred : imageDeletePOST none hashFn
      (DeleteBody.parsed (some (JVal.jarr (strs.map JVal.jstr))) ph) fs
      = deleteWithStrs fs strs := by
    show (match asStringArray (JVal.jarr (strs.map JVal.jstr)) with
          | none =>
            (DeleteResponse.err 400 "Invalid filenames: Must be an array of strings.",
             ([] : List String))
          | some s => deleteWithStrs fs s)
        = deleteWithStrs fs strs
    rw [show asStringArray (JVal.jarr (strs.map JVal.jstr)) = some strs from
      asStringList_map_jstr strs]
  cases strs with
  | nil =>
    refine ⟨200, "No filenames provided to delete.", [], ?_, rfl, ?_, ?_, ?_, ?_,
      hitem1, hitem2, hitem3, hitem4⟩
    · rw [hred]
      rfl
    · simp
    · simp
    · exact fun _ => ⟨rfl, rfl, rfl⟩
    · rw [hred]
      rfl
  | cons f rest =>
    have hproc := processDeletions_eq fs (f :: rest)
    have hd : deleteWithStrs fs (f :: rest)
        = (if ((f :: rest).map (deleteItem fs)).all (·.success) = true then
             (DeleteResponse.summary 200 "All files deleted successfully."
                ((f :: rest).map (deleteItem fs)),
              (f :: rest).filter (fun g => validateFilename g))
           else
             (DeleteResponse.summary 207 "Some files could not be deleted."
                ((f :: rest).map (deleteItem fs)),
              (f :: rest).filter (fun g => validateFilename g))) := by
      show (match processDeletions fs (f :: rest) with
            | (results, attempted) =>
              if results.all (·.success) then
                (DeleteResponse.summary 200 "All files deleted successfully."
                  results, attempted)
              else
                (DeleteResponse.summary 207 "Some files could not be deleted."
                  results, attempted))
          = _
      rw [hproc]
    by_cases hall : ((f :: rest).map (deleteItem fs)).all (·.success) = true
    · refine ⟨200, "All files deleted successfully.",
        (f :: rest).map (deleteItem fs), ?_, rfl, ?_, ?_, ?_, ?_,
        hitem1, hitem2, hitem3, hitem4⟩
      · rw [hred, hd, if_pos hall]
      · rw [hall]
        decide
      · rw [hall]
        decide
      · exact fun h => nomatch h
      · rw [hred, hd, if_pos hall]
    · rw [Bool.not_eq_true] at hall
      have hallne : ¬((f :: rest).map (deleteItem fs)).all (·.success) = true := by
        rw [hall]
        decide
      refine ⟨207, "Some files could not be deleted.",
        (f :: rest).map (deleteItem fs), ?_, rfl, ?_, ?_, ?_, ?_,
        hitem1, hitem2, hitem3, hitem4⟩
      · rw [hred, hd, if_neg hallne]
      · rw [hall]
        decide
      · rw [hall]
        decide
      · exact fun h => nomatch h
      · rw [hred, hd, if_neg hallne]

/-- Witness for claim C2: a mixed list of an existing, a missing and an
invalid filename yields the itemized 207 report. -/
theorem imageDelete_bulk_witness :
    ∃ status message results,
      (imageDeletePOST none (fun s => s)
          (DeleteBody.parsed
            (some (JVal.jarr (["real.png", "missing.png", "bad/name"].map
              JVal.jstr))) none)
          (fun s => if s = "missing.png" then UnlinkOutcome.enoent
                    else UnlinkOutcome.ok)).1
        = DeleteResponse.summary status message results ∧
      results = ["real.png", "missing.png", "bad/name"].map
        (deleteItem (fun s => if s = "missing.png" then UnlinkOutcome.enoent
                              else UnlinkOutcome.ok)) ∧
      (status = 200 ↔ results.all (·.success) = true) ∧
      (status = 207 ↔ results.all (·.success) = false) ∧
      (["real.png", "missing.png", "bad/name"] = ([] : List String) →
        status = 200 ∧ message = "No filenames provided to delete." ∧
        results = []) ∧
      (imageDeletePOST none (fun s => s)
          (DeleteBody.parsed
            (some (JVal.jarr (["real.png", "missing.png", "bad/name"].map
              JVal.jstr))) none)
          (fun s => if s = "missing.png" then UnlinkOutcome.enoent
                    else UnlinkOutcome.ok)).2
        = ["real.png", "missing.png", "bad/name"].filter
            (fun f => validateFilename f) ∧
      (∀ f, validateFilename f = false →
        deleteItem (fun s => if s = "missing.png" then UnlinkOutcome.enoent
                             else UnlinkOutcome.ok) f
          = ⟨f, false, some "Invalid filename format."⟩) ∧
      (∀ f, validateFilename f = true →
        (if f = "missing.png" then UnlinkOutcome.enoent
         else UnlinkOutcome.ok) = UnlinkOutcome.enoent →
        deleteItem (fun s => if s = "missing.png" then UnlinkOutcome.enoent
                             else UnlinkOutcome.ok) f
          = ⟨f, false, some "File not found."⟩) ∧
      (∀ f, validateFilename f = true →
        (if f = "missing.png" then UnlinkOutcome.enoent
         else UnlinkOutcome.ok) = UnlinkOutcome.otherError →
        deleteItem (fun s => if s = "missing.png" then UnlinkOutcome.enoent
                             else UnlinkOutcome.ok) f
          = ⟨f, false, some "Failed to delete file."⟩) ∧
      (∀ f, validateFilename f = true →
        (if f = "missing.png" then UnlinkOutcome.enoent
         else UnlinkOutcome.ok) = UnlinkOutcome.ok →
        deleteItem (fun s => if s = "missing.png" then UnlinkOutcome.enoent
                             else UnlinkOutcome.ok) f
          = ⟨f, true, none⟩) :=
  imageDelete_bulk ["real.png", "missing.png", "bad/name"] none (fun s => s)
    (fun s => if s = "missing.png" then UnlinkOutcome.enoent
              else UnlinkOutcome.ok)

/-! ## Claim C10 -/

/-- Claim C10: a `filenames` value that is not an array, or an array
with any non-string element, makes the whole deletion request fail with
400 `Invalid filenames: Must be an array of strings.` and no unlink is
attempted for any element, valid strings included. -/
theorem deleteBody_allOrNothing (hashFn : String → String)
    (fs : String → UnlinkOutcome) (ph : Option String) (v : JVal)
    (h : (∀ xs, v ≠ JVal.jarr xs) ∨
      (∃ xs, v = JVal.jarr xs ∧ ∃ x ∈ xs, ∀ s, x ≠ JVal.jstr s)) :
    (imageDeletePOST none hashFn (DeleteBody.parsed (some v) ph) fs).1
      = DeleteResponse.err 400 "Invalid filenames: Must be an array of strings." ∧
    (imageDeletePOST none hashFn (DeleteBody.parsed (some v) ph) fs).2 = [] := by
  have hnone : asStringArray v = none := by
    rcases h with hna | ⟨xs, hv, x, hx, hbad⟩
    · cases v with
      | jarr xs => exact absurd rfl (hna xs)
      | jnull => rfl
      | jbool b => rfl
      | jnum n => rfl
      | jstr s => rfl
      | jobj => rfl
    · subst hv
      exact asStringList_none_of_bad xs x hx hbad
  constructor <;> simp [imageDeletePOST, authorize, hnone]

/-- Witness for claim C10: an array holding a number next to a valid
string is rejected wholesale with no unlink attempted. -/
theorem deleteBody_allOrNothing_witness :
    (imageDeletePOST none (fun s => s)
        (DeleteBody.parsed (some (JVal.jarr [JVal.jnum 123, JVal.jstr "valid.png"]))
          none) (fun _ => UnlinkOutcome.ok)).1
      = DeleteResponse.err 400 "Invalid filenames: Must be an array of strings." ∧
    (imageDeletePOST none (fun s => s)
        (DeleteBody.parsed (some (JVal.jarr [JVal.jnum 123, JVal.jstr "valid.png"]))
          none) (fun _ => UnlinkOutcome.ok)).2 = [] :=
  deleteBody_allOrNothing (fun s => s) (fun _ => UnlinkOutcome.ok) none
    (JVal.jarr [JVal.jnum 123, JVal.jstr "valid.png"])
    (Or.inr ⟨[JVal.jnum 123, JVal.jstr "valid.png"], rfl, JVal.jnum 123,
      List.mem_cons_self _ _, fun _ hs => nomatch hs⟩)

/-! ## Persistence and images-route lemmas -/

theorem persistFrom_fs_writes (fmt : String) (ts : Nat) (items : List ProviderItem) :
    ∀ idx, (persistFrom StorageMode.fs fmt ts idx items).2
      = (persistFrom StorageMode.fs fmt ts idx items).1.map (·.filename) := by
  induction items with
  | nil => intro idx; rfl
  | cons it rest ih =>
    intro idx
    simp [persistFrom, ih (idx + 1)]

theorem persistFrom_fs_paths (fmt : String) (ts : Nat) (items : List ProviderItem) :
    ∀ idx, ∀ e ∈ (persistFrom StorageMode.fs fmt ts idx items).1,
      e.path = some (outputDir ++ "/" ++ e.filename) := by
  induction items with
  | nil => intro idx e he; cases he
  | cons it rest ih =>
    intro idx e he
    rw [persistFrom] at he
    simp only [List.mem_cons] at he
    rcases he with he | he
    · subst he; rfl
    · exact ih (idx + 1) e he

theorem persistFrom_idb_writes (fmt : String) (ts : Nat)
    (items : List ProviderItem) :
    ∀ idx, (persistFrom StorageMode.indexeddb fmt ts idx items).2 = [] := by
  induction items with
  | nil => intro idx; rfl
  | cons it rest ih =>
    intro idx
    simp [persistFrom, ih (idx + 1)]

theorem persistFrom_idb_paths (fmt : String) (ts : Nat)
    (items : List ProviderItem) :
    ∀ idx, ∀ e ∈ (persistFrom StorageMode.indexeddb fmt ts idx items).1,
      e.path = none := by
  induction items with
  | nil => intro idx e he; cases he
  | cons it rest ih =>
    intro idx e he
    rw [persistFrom] at he
    simp only [List.mem_cons] at he
    rcases he with he | he
    · subst he; rfl
    · exact ih (idx + 1) e he

theorem persistFrom_b64P (mode : StorageMode) (fmt : String) (ts : Nat)
    (items : List ProviderItem) (P : Option String → Prop)
    (h : ∀ it ∈ items, P it.b64_json) :
    ∀ idx, ∀ e ∈ (persistFrom mode fmt ts idx items).1, P e.b64_json := by
  induction items with
  | nil => intro idx e he; cases he
  | cons it rest ih =>
    intro idx e he
    rw [persistFrom] at he
    cases mode with
    | fs =>
      simp only [List.mem_cons] at he
      rcases he with he | he
      · subst he; exact h it (List.mem_cons_self _ _)
      · exact ih (fun x hx => h x (List.mem_cons_of_mem _ hx)) (idx + 1) e he
    | indexeddb =>
      simp only [List.mem_cons] at he
      rcases he with he | he
      · subst he; exact h it (List.mem_cons_self _ _)
      · exact ih (fun x hx => h x (List.mem_cons_of_mem _ hx)) (idx + 1) e he

theorem persistFrom_ne_nil (mode : StorageMode) (fmt : String) (ts idx : Nat)
    (items : List ProviderItem) (h : items ≠ []) :
    (persistFrom mode fmt ts idx items).1 ≠ [] := by
  cases items with
  | nil => exact absurd rfl h
  | cons it rest =>
    rw [persistFrom]
    cases mode <;> simp

theorem hasPayload_isSome (it : ProviderItem) (h : hasPayload it = true) :
    it.b64_json.isSome = true := by
  unfold hasPayload at h
  cases hj : it.b64_json with
  | none => rw [hj] at h; exact absurd h (by decide)
  | some s => rfl

theorem imagesPOST_provider_err (env : ImagesEnv) (form : ImagesForm)
    (hashFn : String → String) (provider : GenParams → ProviderResult)
    (fsW : Bool) (ts : Nat) (p msg : String)
    (hkey : env.apiKey.isNone = false)
    (hauth : authorize env.appPassword form.passwordHash hashFn
      = AuthResult.Allowed)
    (hmode : form.mode = some "generate" ∨
      (form.mode = some "edit" ∧ form.sourceImages ≠ 0))
    (hp : form.prompt = some p) (hpne : p ≠ "")
    (hprov : ∀ q, provider q = ProviderResult.errored msg) :
    imagesPOST env form hashFn provider fsW ts
      = (ImagesResponse.err 500 msg, some (buildGenParams form p), []) := by
  rcases hmode with hm | ⟨hm, hsi⟩
  · simp [imagesPOST, hkey, hauth, hm, hp, hpne, hprov]
  · simp [imagesPOST, hkey, hauth, hm, hsi, hp, hpne, hprov]

theorem imagesPOST_provider_badItems (env : ImagesEnv) (form : ImagesForm)
    (hashFn : String → String) (provider : GenParams → ProviderResult)
    (fsW : Bool) (ts : Nat) (p : String) (items : List ProviderItem) (hu : Bool)
    (hkey : env.apiKey.isNone = false)
    (hauth : authorize env.appPassword form.passwordHash hashFn
      = AuthResult.Allowed)
    (hmode : form.mode = some "generate" ∨
      (form.mode = some "edit" ∧ form.sourceImages ≠ 0))
    (hp : form.prompt = some p) (hpne : p ≠ "")
    (hprov : ∀ q, provider q = ProviderResult.ok items hu)
    (hbad : items = [] ∨ ∃ it ∈ items, hasPayload it = false) :
    imagesPOST env form hashFn provider fsW ts
      = (ImagesResponse.err 500 "Failed to retrieve image data from API.",
         some (buildGenParams form p), []) := by
  have hcond : (items.isEmpty || items.any fun it => !hasPayload it) = true := by
    rcases hbad with hnil | ⟨it, hit, hpl⟩
    · subst hnil; rfl
    · have : items.any (fun it => !hasPayload it) = true := by
        rw [List.any_eq_true]
        exact ⟨it, hit, by rw [hpl]; rfl⟩
      rw [this, Bool.or_true]
  rcases hmode with hm | ⟨hm, hsi⟩
  · simp [imagesPOST, hkey, hauth, hm, hp, hpne, hprov, hcond]
  · simp [imagesPOST, hkey, hauth, hm, hsi, hp, hpne, hprov, hcond]

theorem imagesPOST_generate_ok (env : ImagesEnv) (form : ImagesForm)
    (hashFn : String → String) (provider : GenParams → ProviderResult)
    (ts : Nat) (p : String) (items : List ProviderItem) (hu : Bool)
    (hkey : env.apiKey.isNone = false)
    (hauth : authorize env.appPassword form.passwordHash hashFn
      = AuthResult.Allowed)
    (hmode : form.mode = some "generate")
    (hp : form.prompt = some p) (hpne : p ≠ "")
    (hprov : ∀ q, provider q = ProviderResult.ok items hu)
    (hne : items ≠ []) (hpl : ∀ it ∈ items, hasPayload it = true) :
    imagesPOST env form hashFn provider true ts
      = (ImagesResponse.ok
           (persistImages (selectMode env.storageModeEnv env.isServerless)
             (buildGenParams form p).output_format ts items).1 hu,
         some (buildGenParams form p),
         (persistImages (selectMode env.storageModeEnv env.isServerless)
           (buildGenParams form p).output_format ts items).2) := by
  have hempty : items.isEmpty = false := by
    cases items with
    | nil => exact absurd rfl hne
    | cons a l => rfl
  have hany : items.any (fun it => !hasPayload it) = false := by
    apply Bool.eq_false_iff.mpr
    intro hcontra
    rw [List.any_eq_true] at hcontra
    obtain ⟨x, hx, hpx⟩ := hcontra
    rw [hpl x hx] at hpx
    exact absurd hpx (by decide)
  simp [imagesPOST, hkey, hauth, hmode, hp, hpne, hprov, hempty, hany]

theorem providerCall_shape (env : ImagesEnv) (form : ImagesForm)
    (hashFn : String → String) (provider : GenParams → ProviderResult)
    (fsW : Bool) (ts : Nat) (q : GenParams)
    (h : (imagesPOST env form hashFn provider fsW ts).2.1 = some q) :
    ∃ p, q = buildGenParams form p := by
  unfold imagesPOST at h
  repeat' split at h
  all_goals simp at h
  all_goals exact ⟨_, h.symm⟩

/-- Witness for claim C3 at a concrete secret and hash function. -/
theorem passwordGate_spec_witness :
    authorize (some "pw") (some ((fun s => "H" ++ s) "pw"))
      (fun s => "H" ++ s) = AuthResult.Allowed ∧
    authorize (some "pw") none (fun s => "H" ++ s) = AuthResult.MissingHash ∧
    authorize (some "pw") (some "nope") (fun s => "H" ++ s)
      = AuthResult.InvalidHash := by
  have h := passwordGate_spec (fun s => "H" ++ s)
  exact ⟨h.2.2.1 "pw" (by decide), h.2.2.2.1 "pw" (by decide),
    h.2.2.2.2.1 "pw" "nope" (by decide) (by decide)⟩

end Playground

namespace Playground

/-! ## Claim C4 -/

/-- Claim C4: for a generate call, or an edit call carrying at least one
source image, when any provider-returned image item lacks a non-empty
byte payload (empty data array or missing payload), the whole call fails
with 500 `Failed to retrieve image data from API.` and never a per-item
partial result; and when the provider call throws, its error message is
forwarded unchanged with status 500. -/
theorem providerFailure_wholeCall (env : ImagesEnv) (form : ImagesForm)
    (hashFn : String → String) (provider : GenParams → ProviderResult)
    (fsW : Bool) (ts : Nat) (p : String)
    (hkey : env.apiKey.isNone = false)
    (hauth : authorize env.appPassword form.passwordHash hashFn
      = AuthResult.Allowed)
    (hmode : form.mode = some "generate" ∨
      (form.mode = some "edit" ∧ form.sourceImages ≠ 0))
    (hp : form.prompt = some p) (hpne : p ≠ "") :
    (∀ msg, (∀ q, provider q = ProviderResult.errored msg) →
      (imagesPOST env form hashFn provider fsW ts).1
        = ImagesResponse.err 500 msg) ∧
    (∀ items hu, (∀ q, provider q = ProviderResult.ok items hu) →
      (items = [] ∨ ∃ it ∈ items, hasPayload it = false) →
      (imagesPOST env form hashFn provider fsW ts).1
        = ImagesResponse.err 500 "Failed to retrieve image data from API.") := by
  constructor
  · intro msg hprov
    rw [imagesPOST_provider_err env form hashFn provider fsW ts p msg
      hkey hauth hmode hp hpne hprov]
  · intro items hu hprov hbad
    rw [imagesPOST_provider_badItems env form hashFn provider fsW ts p items hu
      hkey hauth hmode hp hpne hprov hbad]

/-- Witness for claim C4: a thrown provider error is forwarded and an
empty data array fails wholesale on a generate call, and an edit call
with one source image forwards a thrown provider error the same way. -/
theorem providerFailure_wholeCall_witness :
    (imagesPOST testEnv testForm (fun s => s)
        (fun _ => ProviderResult.errored "OpenAI API error") true 5).1
      = ImagesResponse.err 500 "OpenAI API error" ∧
    (imagesPOST testEnv testForm (fun s => s)
        (fun _ => ProviderResult.ok [] true) true 5).1
      = ImagesResponse.err 500 "Failed to retrieve image data from API." ∧
    (imagesPOST testEnv { testForm with mode := some "edit", sourceImages := 1 }
        (fun s => s) (fun _ => ProviderResult.errored "Edit API error")
        true 5).1
      = ImagesResponse.err 500 "Edit API error" := by
  refine ⟨?_, ?_, ?_⟩
  · exact (providerFailure_wholeCall testEnv testForm (fun s => s)
      (fun _ => ProviderResult.errored "OpenAI API error") true 5 "test"
      rfl rfl (Or.inl rfl) rfl (by decide)).1 "OpenAI API error" (fun _ => rfl)
  · exact (providerFailure_wholeCall testEnv testForm (fun s => s)
      (fun _ => ProviderResult.ok [] true) true 5 "test"
      rfl rfl (Or.inl rfl) rfl (by decide)).2 [] true (fun _ => rfl)
      (Or.inl rfl)
  · exact (providerFailure_wholeCall testEnv
      { testForm with mode := some "edit", sourceImages := 1 } (fun s => s)
      (fun _ => ProviderResult.errored "Edit API error") true 5 "test"
      rfl rfl (Or.inr ⟨rfl, by decide⟩) rfl (by decide)).1 "Edit API error"
      (fun _ => rfl)

/-! ## Claim C5 -/

/-- Claim C5: output-format normalization maps `jpg` and `jpeg` to
`jpeg`, `png` to `png`, `webp` to `webp`, and any unrecognized value
(the empty string included) falls back to `png`; the compression
parameter is present in the outbound provider call exactly when the
normalized format is `jpeg` or `webp`. -/
theorem outputFormat_normalization :
    normalizeOutputFormat (some "jpg") = "jpeg" ∧
    normalizeOutputFormat (some "jpeg") = "jpeg" ∧
    normalizeOutputFormat (some "png") = "png" ∧
    normalizeOutputFormat (some "webp") = "webp" ∧
    normalizeOutputFormat (some "") = "png" ∧
    normalizeOutputFormat (some "invalid") = "png" ∧
    normalizeOutputFormat none = "png" ∧
    (∀ s, lowerString s ∉ (["jpg", "jpeg", "png", "webp"] : List String) →
      normalizeOutputFormat (some s) = "png") ∧
    (∀ env form hashFn provider fsW ts q,
      (imagesPOST env form hashFn provider fsW ts).2.1 = some q →
      (q.output_compression.isSome = true ↔
        (q.output_format = "jpeg" ∨ q.output_format = "webp"))) := by
  refine ⟨by decide, by decide, by decide, by decide, by decide, by decide, rfl,
    ?_, ?_⟩
  · intro s hs
    simp only [List.mem_cons, not_or] at hs
    obtain ⟨h1, h2, h3, h4, _⟩ := hs
    unfold normalizeOutputFormat
    simp [h1, h2, h3, h4]
  · intro env form hashFn provider fsW ts q h
    obtain ⟨p, hq⟩ := providerCall_shape env form hashFn provider fsW ts q h
    subst hq
    simp only [buildGenParams]
    by_cases hf : normalizeOutputFormat form.output_format = "jpeg" ∨
        normalizeOutputFormat form.output_format = "webp"
    · simp [hf]
    · simp [hf]

/-- Witness for claim C5: a jpeg request carries compression in the
provider call, a png request does not. -/
theorem outputFormat_normalization_witness :
    ((imagesPOST testEnv
        { testForm with output_format := some "jpeg",
                        output_compression := some "75" }
        (fun s => s) (fun _ => ProviderResult.ok [⟨some "B"⟩] true) true 5).2.1
        = some (buildGenParams
            { testForm with output_format := some "jpeg",
                            output_compression := some "75" } "test") →
      ((buildGenParams
          { testForm with output_format := some "jpeg",
                          output_compression := some "75" } "test"
        ).output_compression.isSome = true ↔
       ((buildGenParams
           { testForm with output_format := some "jpeg",
                           output_compression := some "75" } "test"
         ).output_format = "jpeg" ∨
        (buildGenParams
           { testForm with output_format := some "jpeg",
                           output_compression := some "75" } "test"
         ).output_format = "webp"))) ∧
    normalizeOutputFormat (some "jpg") = "jpeg" := by
  constructor
  · exact outputFormat_normalization.2.2.2.2.2.2.2.2 testEnv
      { testForm with output_format := some "jpeg",
                      output_compression := some "75" }
      (fun s => s) (fun _ => ProviderResult.ok [⟨some "B"⟩] true) true 5
      (buildGenParams
        { testForm with output_format := some "jpeg",
                        output_compression := some "75" } "test")
  · exact outputFormat_normalization.1

end Playground

namespace Playground

/-! ## Claim C6 -/

/-- Claim C6: the storage mode is selected by precedence — an explicit
`fs` or `indexeddb` configuration wins, otherwise a detected serverless
environment selects `indexeddb` and the default is `fs`; in `fs` mode
every image is written to disk and its response entry carries a disk
path, while in `indexeddb` mode nothing is written to disk and entries
carry no path, only the inline payload. -/
theorem storageMode_selection (env : ImagesEnv) (form : ImagesForm)
    (hashFn : String → String) (provider : GenParams → ProviderResult)
    (ts : Nat) (p : String) (items : List ProviderItem) (hu : Bool)
    (hkey : env.apiKey.isNone = false)
    (hauth : authorize env.appPassword form.passwordHash hashFn
      = AuthResult.Allowed)
    (hmode : form.mode = some "generate")
    (hp : form.prompt = some p) (hpne : p ≠ "")
    (hprov : ∀ q, provider q = ProviderResult.ok items hu)
    (hne : items ≠ []) (hpl : ∀ it ∈ items, hasPayload it = true) :
    (∀ b, selectMode (some "fs") b = StorageMode.fs) ∧
    (∀ b, selectMode (some "indexeddb") b = StorageMode.indexeddb) ∧
    selectMode none true = StorageMode.indexeddb ∧
    selectMode none false = StorageMode.fs ∧
    (selectMode env.storageModeEnv env.isServerless = StorageMode.fs →
      ∃ entries, (imagesPOST env form hashFn provider true ts).1
          = ImagesResponse.ok entries hu ∧
        entries ≠ [] ∧
        (imagesPOST env form hashFn provider true ts).2.2
          = entries.map (·.filename) ∧
        ∀ e ∈ entries, e.path = some (outputDir ++ "/" ++ e.filename)) ∧
    (selectMode env.storageModeEnv env.isServerless = StorageMode.indexeddb →
      ∃ entries, (imagesPOST env form hashFn provider true ts).1
          = ImagesResponse.ok entries hu ∧
        entries ≠ [] ∧
        (imagesPOST env form hashFn provider true ts).2.2 = [] ∧
        ∀ e ∈ entries, e.path = none ∧ e.b64_json.isSome = true) := by
  have hok := imagesPOST_generate_ok env form hashFn provider ts p items hu
    hkey hauth hmode hp hpne hprov hne hpl
  refine ⟨fun b => rfl, fun b => rfl, rfl, rfl, ?_, ?_⟩
  · intro hsel
    rw [hok, hsel]
    refine ⟨(persistImages StorageMode.fs (buildGenParams form p).output_format
      ts items).1, rfl, ?_, ?_, ?_⟩
    · exact persistFrom_ne_nil _ _ _ _ items hne
    · exact persistFrom_fs_writes _ _ items 0
    · exact persistFrom_fs_paths _ _ items 0
  · intro hsel
    rw [hok, hsel]
    refine ⟨(persistImages StorageMode.indexeddb
      (buildGenParams form p).output_format ts items).1, rfl, ?_, ?_, ?_⟩
    · exact persistFrom_ne_nil _ _ _ _ items hne
    · exact persistFrom_idb_writes _ _ items 0
    · intro e he
      refine ⟨persistFrom_idb_paths _ _ items 0 e he, ?_⟩
      exact persistFrom_b64P StorageMode.indexeddb _ _ items
        (fun j => j.isSome = true)
        (fun it hit => hasPayload_isSome it (hpl it hit)) 0 e he

/-- Witness for claim C6: with no explicit mode and no serverless flag
the filesystem path is taken, entries carrying disk paths. -/
theorem storageMode_selection_witness :
    ∃ entries, (imagesPOST testEnv testForm (fun s => s)
        (fun _ => ProviderResult.ok [⟨some "B"⟩] true) true 7).1
        = ImagesResponse.ok entries true ∧
      entries ≠ [] ∧
      (imagesPOST testEnv testForm (fun s => s)
        (fun _ => ProviderResult.ok [⟨some "B"⟩] true) true 7).2.2
        = entries.map (·.filename) ∧
      ∀ e ∈ entries, e.path = some (outputDir ++ "/" ++ e.filename) :=
  (storageMode_selection testEnv testForm (fun s => s)
    (fun _ => ProviderResult.ok [⟨some "B"⟩] true) 7 "test" [⟨some "B"⟩] true
    rfl rfl rfl rfl (by decide) (fun _ => rfl) (by simp)
    (by intro it hit; simp only [List.mem_singleton] at hit; subst hit; decide)
    ).2.2.2.2.1 rfl

/-! ## Claim C8 -/

/-- Claim C8: the requested image count is clamped into [1,10] (a
request with n = 15 reaches the provider with n = 10 and succeeds), and
a request missing its prompt, missing its mode, or carrying an
unrecognized mode is rejected with a 400 error before any provider
call. -/
theorem paramClamp_and_rejection :
    (∀ s, 1 ≤ clampCount s ∧ clampCount s ≤ 10) ∧
    clampCount (some "15") = 10 ∧
    (∀ env form hashFn provider ts p items hu,
      (env : ImagesEnv).apiKey.isNone = false →
      authorize env.appPassword (form : ImagesForm).passwordHash hashFn
        = AuthResult.Allowed →
      form.mode = some "generate" → form.prompt = some p → p ≠ "" →
      form.n = some "15" →
      (∀ q, (provider : GenParams → ProviderResult) q
        = ProviderResult.ok items hu) →
      items ≠ [] → (∀ it ∈ items, hasPayload it = true) →
      (∃ entries, (imagesPOST env form hashFn provider true ts).1
        = ImagesResponse.ok entries hu) ∧
      (∃ q, (imagesPOST env form hashFn provider true ts).2.1 = some q ∧
        q.n = 10)) ∧
    (∀ env form hashFn provider fsW ts,
      (env : ImagesEnv).apiKey.isNone = false →
      authorize env.appPassword (form : ImagesForm).passwordHash hashFn
        = AuthResult.Allowed →
      (form.prompt = none ∨ form.prompt = some "" ∨ form.mode = none ∨
        (∃ m, form.mode = some m ∧ m ≠ "generate" ∧ m ≠ "edit")) →
      (∃ msg, (imagesPOST env form hashFn provider fsW ts).1
        = ImagesResponse.err 400 msg) ∧
      (imagesPOST env form hashFn provider fsW ts).2.1 = none) := by
  refine ⟨?_, by decide, ?_, ?_⟩
  · intro s
    unfold clampCount
    omega
  · intro env form hashFn provider ts p items hu hkey hauth hmode hp hpne hn
      hprov hne hpl
    have hok := imagesPOST_generate_ok env form hashFn provider ts p items hu
      hkey hauth hmode hp hpne hprov hne hpl
    rw [hok]
    refine ⟨⟨_, rfl⟩, buildGenParams form p, rfl, ?_⟩
    simp only [buildGenParams, hn]
    decide
  · intro env form hashFn provider fsW ts hkey hauth hbad
    rcases hbad with hP | hP | hM | ⟨m, hM, hm1, hm2⟩
    · refine ⟨⟨"Prompt is required.", ?_⟩, ?_⟩ <;>
        simp [imagesPOST, hkey, hauth, hP]
    · refine ⟨⟨"Prompt is required.", ?_⟩, ?_⟩ <;>
        simp [imagesPOST, hkey, hauth, hP]
    · cases hp : form.prompt with
      | none =>
        refine ⟨⟨"Prompt is required.", ?_⟩, ?_⟩ <;>
          simp [imagesPOST, hkey, hauth, hp]
      | some p =>
        by_cases hpe : p = ""
        · subst hpe
          refine ⟨⟨"Prompt is required.", ?_⟩, ?_⟩ <;>
            simp [imagesPOST, hkey, hauth, hp]
        · refine ⟨⟨"Invalid mode specified.", ?_⟩, ?_⟩ <;>
            simp [imagesPOST, hkey, hauth, hp, hpe, hM]
    · cases hp : form.prompt with
      | none =>
        refine ⟨⟨"Prompt is required.", ?_⟩, ?_⟩ <;>
          simp [imagesPOST, hkey, hauth, hp]
      | some p =>
        by_cases hpe : p = ""
        · subst hpe
          refine ⟨⟨"Prompt is required.", ?_⟩, ?_⟩ <;>
            simp [imagesPOST, hkey, hauth, hp]
        · refine ⟨⟨"Invalid mode specified.", ?_⟩, ?_⟩ <;>
            simp [imagesPOST, hkey, hauth, hp, hpe, hM, hm1, hm2]

/-- Witness for claim C8: n = 15 reaches the provider clamped to 10 with
a 200 answer, and a missing prompt is a 400 with no provider call. -/
theorem paramClamp_and_rejection_witness :
    ((∃ entries, (imagesPOST testEnv { testForm with n := some "15" }
        (fun s => s) (fun _ => ProviderResult.ok [⟨some "B"⟩] true) true 3).1
        = ImagesResponse.ok entries true) ∧
     (∃ q, (imagesPOST testEnv { testForm with n := some "15" }
        (fun s => s) (fun _ => ProviderResult.ok [⟨some "B"⟩] true) true 3).2.1
        = some q ∧ q.n = 10)) ∧
    ((∃ msg, (imagesPOST testEnv { testForm with prompt := none }
        (fun s => s) (fun _ => ProviderResult.ok [⟨some "B"⟩] true) true 3).1
        = ImagesResponse.err 400 msg) ∧
     (imagesPOST testEnv { testForm with prompt := none }
        (fun s => s) (fun _ => ProviderResult.ok [⟨some "B"⟩] true) true 3).2.1
        = none) := by
  constructor
  · exact paramClamp_and_rejection.2.2.1 testEnv
      { testForm with n := some "15" } (fun s => s)
      (fun _ => ProviderResult.ok [⟨some "B"⟩] true) 3 "test" [⟨some "B"⟩] true
      rfl rfl rfl rfl (by decide) rfl (fun _ => rfl) (by simp)
      (by intro it hit; simp only [List.mem_singleton] at hit; subst hit; decide)
  · exact paramClamp_and_rejection.2.2.2 testEnv
      { testForm with prompt := none } (fun s => s)
      (fun _ => ProviderResult.ok [⟨some "B"⟩] true) true 3
      rfl rfl (Or.inl rfl)

end Playground

namespace Playground

theorem imageFilename_zero_png (ts : Nat) :
    imageFilename ts 0 "png" = toString ts ++ "-0.png" := by
  unfold imageFilename
  rw [String.append_assoc, String.append_assoc, String.append_assoc]
  congr 1

/-! ## Claim C9 -/

/-- Claim C9: a generate request supplying only mode and prompt reaches
the provider with the fixed defaults n = 1, size 1024x1024, quality
auto, output format png, background auto, moderation auto (and no
compression), and the single returned image is named
`<timestamp>-0.png` with output format png. -/
theorem generationDefaults (env : ImagesEnv) (form : ImagesForm)
    (hashFn : String → String) (provider : GenParams → ProviderResult)
    (ts : Nat) (p b : String) (ph : Option String)
    (hkey : env.apiKey.isNone = false)
    (hauth : authorize env.appPassword ph hashFn = AuthResult.Allowed)
    (hform : form = minimalForm p ph)
    (hpne : p ≠ "") (hb : b ≠ "")
    (hprov : ∀ q, provider q = ProviderResult.ok [⟨some b⟩] true) :
    (imagesPOST env form hashFn provider true ts).2.1 = some
      { model := "gpt-image-1-mini", prompt := p, n := 1, size := "1024x1024",
        quality := "auto", output_format := "png", output_compression := none,
        background := "auto", moderation := "auto" } ∧
    ∃ e, (imagesPOST env form hashFn provider true ts).1
        = ImagesResponse.ok [e] true ∧
      e.filename = toString ts ++ "-0.png" ∧ e.output_format = "png" ∧
      e.b64_json = some b := by
  subst hform
  have hpl : ∀ it ∈ [ProviderItem.mk (some b)], hasPayload it = true := by
    intro it hit
    simp only [List.mem_singleton] at hit
    subst hit
    simp [hasPayload, hb]
  have hok := imagesPOST_generate_ok env (minimalForm p ph) hashFn provider ts p
    [ProviderItem.mk (some b)] true hkey hauth (by rfl) (by rfl) hpne hprov
    (by simp) hpl
  have hparams : buildGenParams (minimalForm p ph) p
      = { model := "gpt-image-1-mini", prompt := p, n := 1,
          size := "1024x1024", quality := "auto", output_format := "png",
          output_compression := none, background := "auto",
          moderation := "auto" } := by
    unfold buildGenParams minimalForm normalizeOutputFormat clampCount
      normalizeSize normalizeQuality normalizeBackground normalizeModeration
    simp
  rw [hok, hparams]
  refine ⟨rfl, ?_⟩
  cases hsel : selectMode env.storageModeEnv env.isServerless with
  | fs =>
    refine ⟨⟨imageFilename ts 0 "png", some b,
      some (outputDir ++ "/" ++ imageFilename ts 0 "png"), "png"⟩, ?_,
      imageFilename_zero_png ts, rfl, rfl⟩
    simp [persistImages, persistFrom]
  | indexeddb =>
    refine ⟨⟨imageFilename ts 0 "png", some b, none, "png"⟩, ?_,
      imageFilename_zero_png ts, rfl, rfl⟩
    simp [persistImages, persistFrom]

/-- Witness for claim C9: the basic generate request at timestamp 42
yields the default provider call and the file 42-0.png. -/
theorem generationDefaults_witness :
    (imagesPOST testEnv testForm (fun s => s)
        (fun _ => ProviderResult.ok [⟨some "B"⟩] true) true 42).2.1 = some
      { model := "gpt-image-1-mini", prompt := "test", n := 1,
        size := "1024x1024", quality := "auto", output_format := "png",
        output_compression := none, background := "auto",
        moderation := "auto" } ∧
    ∃ e, (imagesPOST testEnv testForm (fun s => s)
        (fun _ => ProviderResult.ok [⟨some "B"⟩] true) true 42).1
        = ImagesResponse.ok [e] true ∧
      e.filename = toString 42 ++ "-0.png" ∧ e.output_format = "png" ∧
      e.b64_json = some "B" :=
  generationDefaults testEnv testForm (fun s => s)
    (fun _ => ProviderResult.ok [⟨some "B"⟩] true) 42 "test" "B" none
    rfl rfl rfl (by decide) (by decide) (fun _ => rfl)

/-! ## Claim C7 -/

theorem natDiv_rounding (x : ℕ) :
    ((x + 50) / 100 : ℕ) = ⌊((x : ℚ) / 100) + 1 / 2⌋₊ := by
  have h1 : ((x : ℚ) / 100) + 1 / 2 = ((x + 50 : ℕ) : ℚ) / ((100 : ℕ) : ℚ) := by
    push_cast
    ring
  rw [h1, Nat.floor_div_nat, Nat.floor_natCast]

/-- Claim C7: the cost estimator is null when the usage record is
absent, lacks the breakdown shape, or carries a non-numeric token field;
otherwise it charges each token at its fixed rate (absent fields
defaulting to 0) and rounds the sum half-up to 4 decimal places, so 199
text tokens price at 0.0010 USD rather than a truncated 0.000995. -/
theorem costEstimator_spec :
    calculateApiCost none = none ∧
    (∀ u, u.input_tokens_details = none → calculateApiCost (some u) = none) ∧
    (∀ u d, u.input_tokens_details = some d →
      (d.text_tokens = TokenField.nonNumeric ∨
       d.image_tokens = TokenField.nonNumeric ∨
       u.output_tokens = TokenField.nonNumeric) →
      calculateApiCost (some u) = none) ∧
    tokenValue TokenField.missing = some 0 ∧
    (∀ u d t i o, u.input_tokens_details = some d →
      tokenValue d.text_tokens = some t → tokenValue d.image_tokens = some i →
      tokenValue u.output_tokens = some o →
      calculateApiCost (some u) = some
        { estimated_cost_usd := roundHalfUpTo4
            (t * priceTextInput + i * priceImageInput + o * priceImageOutput),
          text_input_tokens := t, image_input_tokens := i,
          image_output_tokens := o }) ∧
    calculateApiCost (some ⟨some ⟨TokenField.num 199, TokenField.num 0⟩,
      TokenField.num 0⟩) = some ⟨1 / 1000, 199, 0, 0⟩ := by
  have key : ∀ t i o : ℕ,
      ((((5 * t + 10 * i + 40 * o + 50) / 100 : ℕ) : ℚ) / 10000)
        = roundHalfUpTo4
            (t * priceTextInput + i * priceImageInput + o * priceImageOutput) := by
    intro t i o
    unfold roundHalfUpTo4 priceTextInput priceImageInput priceImageOutput
    rw [show ((t : ℚ) * (5 / 1000000) + (i : ℚ) * (10 / 1000000)
          + (o : ℚ) * (40 / 1000000)) * 10000
        = ((5 * t + 10 * i + 40 * o : ℕ) : ℚ) / 100 by push_cast; ring]
    rw [← natDiv_rounding (5 * t + 10 * i + 40 * o)]
  refine ⟨rfl, ?_, ?_, rfl, ?_, ?_⟩
  · intro u hd
    simp [calculateApiCost, hd]
  · intro u d hd hbad
    rcases hbad with hb | hb | hb <;>
      simp [calculateApiCost, hd, hb, tokenValue]
  · intro u d t i o hd ht hi ho
    simp only [calculateApiCost, hd, ht, hi, ho]
    rw [← key t i o]
  · have h199 : (5 * 199 + 10 * 0 + 40 * 0 + 50) / 100 = (10 : ℕ) := by decide
    simp only [calculateApiCost, tokenValue]
    norm_num

/-- Witness for claim C7 at the token counts of the typical-values
test. -/
theorem costEstimator_spec_witness :
    calculateApiCost (some ⟨some ⟨TokenField.num 100, TokenField.num 50⟩,
      TokenField.num 25⟩) = some
      { estimated_cost_usd := roundHalfUpTo4
          (100 * priceTextInput + 50 * priceImageInput + 25 * priceImageOutput),
        text_input_tokens := 100, image_input_tokens := 50,
        image_output_tokens := 25 } :=
  costEstimator_spec.2.2.2.2.1 _ _ 100 50 25 rfl rfl rfl rfl

end Playground
